import Mathlib

/-!
Shallow embedding of the Paradrop configuration-convergence core and chute
lifecycle orchestrator, translated from the Python sources:

* `paradrop/backend/pdconfd/config/dhcp.py` (ConfigDhcp)
* `src/paradrop/confd/wireless.py` (ConfigWifiIface, HostapdConfGenerator)
* `paradrop/lib/config/network.py` (getNetworkConfig)
* `paradrop/lib/container/dockerapi.py` (buildImage, setup_net_interfaces,
  prepare_environment)

Python dictionaries become association lists, machine-level IPv4 addresses
become natural numbers below 2^32, fallible code returns `Except String`,
and Python truthiness on optional values is made explicit.
-/

namespace Paradrop

/-- A hostapd option value as appended by the Python generator: either a
string, an integer, or Python `None` (which `"{}={}".format` renders as
the literal string `None`). -/
inductive HVal where
  | str (s : String)
  | int (n : Int)
  | pynone
deriving DecidableEq, Repr

/-- Rendering of an option value by `"{}={}".format(name, value)`. -/
def HVal.render : HVal → String
  | .str s => s
  | .int n => toString n
  | .pynone => "None"

/-- Python truthiness of an optional boolean option (`None` is falsy). -/
def truthyB : Option Bool → Bool
  | some b => b
  | none => false

/-- Python truthiness of an optional integer option (`None` and `0` falsy). -/
def truthyI : Option Int → Bool
  | some n => n != 0
  | none => false

/-- Python `str.strip()`: remove leading and trailing whitespace. -/
def pyStrip (s : String) : String :=
  let ws : List Char := [' ', '\t', '\n', '\r', '\x0b', '\x0c']
  String.mk (((s.data.dropWhile ws.contains).reverse.dropWhile ws.contains).reverse)

/-- Python slicing `s[0:stop]` where `stop` may be negative: a negative stop
counts from the end of the string, clipped at 0. -/
def pySliceTo (s : String) (stop : Int) : String :=
  let n : Int := s.data.length
  let e : Int := if stop < 0 then max (n + stop) 0 else min stop n
  String.mk (s.data.take e.toNat)

/-- Dotted-quad rendering of a 32-bit IPv4 address value, as produced by
Python `str(ipaddress.IPv4Address(n))`. -/
def ipv4Str (n : Nat) : String :=
  toString (n / 16777216 % 256) ++ "." ++ toString (n / 65536 % 256) ++ "." ++
    toString (n / 256 % 256) ++ "." ++ toString (n % 256)

/-- Predicate: `m` is a well-formed IPv4 netmask: `p` leading one bits, `32 - p` zeros. -/
def isValidNetmask (m : Nat) : Prop :=
  ∃ p ≤ 32, m = 2 ^ 32 - 2 ^ (32 - p)

instance : DecidablePred isValidNetmask := fun m =>
  decidable_of_iff (∃ p ≤ 32, m = 2 ^ 32 - 2 ^ (32 - p)) Iff.rfl

/-- Modelled from the spec: command priority constants from
`confd/command.py` (not under src/).  The spec fixes only the order
CREATE_IFACE < CONFIG_IFACE < CREATE_QDISC < CREATE_VLAN < ADD_LINK <
START_DAEMON; reverts use the negated priority. -/
def PRIO_CREATE_IFACE : Int := 10

/-- Modelled from the spec: see `PRIO_CREATE_IFACE`. -/
def PRIO_CONFIG_IFACE : Int := 20

/-- Modelled from the spec: see `PRIO_CREATE_IFACE`. -/
def PRIO_START_DAEMON : Int := 60

/-! Part 1: dhcp section handler (`pdconfd/config/dhcp.py`) -/

/-- Options of a `config dhcp` section (`ConfigDhcp.options`). -/
structure DhcpSection where
  interface : String
  leasetime : String
  limit : Nat
  start : Nat
  dhcp_option : List String
  name : String
  source : String
deriving DecidableEq, Repr

/-- The fields of a resolved `config interface` section that
`ConfigDhcp.commands` reads.  `ipaddr` and `netmask` are the parsed 32-bit
values of the section's dotted-quad strings (the valid-parse case). -/
structure InterfaceSec where
  ifname : String
  ipaddr : Nat
  netmask : Nat
deriving DecidableEq, Repr

/-- Options of a `config dnsmasq` section (`ConfigDnsmasq.options`). -/
structure DnsmasqSec where
  noresolv : Bool
  server : Option (List String)
deriving DecidableEq, Repr

/-- The default dnsmasq section (`ConfigDnsmasq.default = ConfigDnsmasq()`:
all options at their defaults). -/
def ConfigDnsmasq.default : DnsmasqSec := ⟨false, none⟩

/-- Model of `ipaddress.IPv4Network("{ipaddr}/{netmask}", strict=False).network_address`:
the bitwise AND of address and mask. -/
def networkAddress (ipaddr netmask : Nat) : Nat :=
  Nat.land ipaddr netmask

/-- The lines `ConfigDhcp.commands` writes to `dnsmasq-<interface>.conf`,
in order. -/
def dhcpConfLines (s : DhcpSection) (iface : InterfaceSec) (dnsmasq : DnsmasqSec)
    (writeDir : String) : List String :=
  let firstAddress := networkAddress iface.ipaddr iface.netmask + s.start
  let lastAddress := firstAddress + s.limit
  let leaseFile := writeDir ++ "/dnsmasq-" ++ s.interface ++ ".leases"
  [String.mk (List.replicate 80 '#'),
   "# dnsmasq configuration file generated by pdconfd",
   "# Source: " ++ s.source,
   "# Section: config dhcp " ++ s.name,
   String.mk (List.replicate 80 '#'),
   "interface=" ++ iface.ifname,
   "dhcp-range=" ++ ipv4Str firstAddress ++ "," ++ ipv4Str lastAddress ++ "," ++ s.leasetime,
   "dhcp-leasefile=" ++ leaseFile]
  ++ s.dhcp_option.map (fun o => "dhcp-option=" ++ o)
  ++ (if dnsmasq.noresolv then ["no-resolv"] else [])
  ++ (dnsmasq.server.getD []).map (fun sv => "server=" ++ sv)
  ++ ["except-interface=lo", "bind-interfaces"]

/-- Model of `ConfigDhcp.commands`: resolves the linked interface section (may fail),
writes `dnsmasq-<interface>.conf`, and returns the daemon start command.
The result is the written file (path and lines) together with the command
list; `ifaceLookup = none` is the failed-lookup case. -/
def ConfigDhcp.commands (s : DhcpSection) (ifaceLookup : Option InterfaceSec)
    (dnsmasq : DnsmasqSec) (writeDir : String) :
    Except String (String × List String × List (Int × List String)) :=
  match ifaceLookup with
  | none => .error ("Failed to find section interface " ++ s.interface)
  | some iface =>
      let pidFile := writeDir ++ "/dnsmasq-" ++ s.interface ++ ".pid"
      let outputPath := writeDir ++ "/dnsmasq-" ++ s.interface ++ ".conf"
      let cmd := ["/apps/bin/dnsmasq", "--conf-file=" ++ outputPath,
                  "--pid-file=" ++ pidFile]
      .ok (outputPath, dhcpConfLines s iface dnsmasq writeDir,
           [(PRIO_START_DAEMON, cmd)])

/-- Model of `ConfigDhcp.undoCommands`: reads the PID file and issues a kill; a
missing or unreadable PID file (`pidContent = none`) is caught by the bare
`except` and yields an empty command list. -/
def ConfigDhcp.undoCommands (pidContent : Option String) : List (Int × List String) :=
  match pidContent with
  | some content => [(PRIO_START_DAEMON, ["kill", pyStrip content])]
  | none => []

/-! Part 2: wireless section handler (`confd/wireless.py`) -/

/-- Map `HOSTAPD_HWMODE`: map from UCI hardware-mode strings to hostapd format. -/
def HOSTAPD_HWMODE : String → Option String
  | "11b" => some "b"
  | "11g" => some "g"
  | "11a" => some "a"
  | _ => none

/-- Channel set `HT40_LOWER_CHANNELS`. -/
def HT40_LOWER_CHANNELS : List Int := [36, 44, 52, 60, 100, 108, 116, 124, 132, 140, 149, 157]

/-- Channel set `HT40_UPPER_CHANNELS`. -/
def HT40_UPPER_CHANNELS : List Int := [40, 48, 56, 64, 104, 112, 120, 128, 136, 144, 153, 161]

/-- Table `VHT40_CENTER_INDEX`: 20 MHz channel to center index of its 40 MHz
channel; a channel outside the table is a Python `KeyError` (`none`). -/
def VHT40_CENTER_INDEX : Int → Option Int
  | 36 => some 38 | 40 => some 38 | 44 => some 46 | 48 => some 46
  | 52 => some 54 | 56 => some 54 | 60 => some 62 | 64 => some 62
  | 100 => some 102 | 104 => some 102 | 108 => some 110 | 112 => some 110
  | 116 => some 118 | 120 => some 118 | 124 => some 126 | 128 => some 126
  | 132 => some 134 | 136 => some 134 | 140 => some 142 | 144 => some 142
  | 149 => some 151 | 153 => some 151 | 157 => some 159 | 161 => some 159
  | _ => none

/-- Table `VHT80_CENTER_INDEX`: 20 MHz channel to center index of its 80 MHz channel. -/
def VHT80_CENTER_INDEX : Int → Option Int
  | 36 => some 42 | 40 => some 42 | 44 => some 42 | 48 => some 42
  | 52 => some 58 | 56 => some 58 | 60 => some 58 | 64 => some 58
  | 100 => some 106 | 104 => some 106 | 108 => some 106 | 112 => some 106
  | 116 => some 122 | 120 => some 122 | 124 => some 122 | 128 => some 122
  | 132 => some 138 | 136 => some 138 | 140 => some 138 | 144 => some 138
  | 149 => some 155 | 153 => some 155 | 157 => some 155 | 161 => some 155
  | _ => none

/-- Table `VHT160_CENTER_INDEX`: 20 MHz channel to center index of its 160 MHz channel. -/
def VHT160_CENTER_INDEX : Int → Option Int
  | 36 => some 50 | 40 => some 50 | 44 => some 50 | 48 => some 50
  | 52 => some 50 | 56 => some 50 | 60 => some 50 | 64 => some 50
  | 100 => some 114 | 104 => some 114 | 108 => some 114 | 112 => some 114
  | 116 => some 114 | 120 => some 114 | 124 => some 114 | 128 => some 114
  | _ => none

/-- Constant `string.hexdigits` from the Python standard library. -/
def hexdigits : List Char := "0123456789abcdefABCDEF".data

/-- Model of `isHexString(data)`: test if a string contains only hex digits. -/
def isHexString (data : String) : Bool :=
  data.data.all (fun c => hexdigits.contains c)

/-- Options of a `config wifi-device` section (`ConfigWifiDevice.options`),
plus the section `name`.  Optional options default to Python `None`. -/
structure WifiDeviceSec where
  name : String
  channel : Int
  hwmode : Option String := none
  country : Option String := none
  require_mode : Option String := none
  htmode : Option String := none
  beacon_int : Option Int := none
  frag : Option Int := none
  rts : Option Int := none
  short_gi_20 : Option Bool := none
  short_gi_40 : Option Bool := none
  tx_stbc : Option Int := none
  rx_stbc : Option Int := none
  dsss_cck_40 : Option Bool := none
  short_gi_80 : Option Bool := none
  short_gi_160 : Option Bool := none
  tx_stbc_2by1 : Option Bool := none
deriving DecidableEq, Repr

/-- Options of a `config wifi-iface` section (`ConfigWifiIface.options`),
plus the section's internal name. -/
structure WifiIfaceSec where
  device : String
  mode : String
  ssid : String
  hidden : Bool := false
  wmm : Bool := true
  network : String
  encryption : Option String := none
  key : Option String := none
  maxassoc : Option Int := none
  ifname : Option String := none
  internalName : String
deriving DecidableEq, Repr

/-- The fields of a `config interface` (network) section that the wireless
handler reads. -/
structure InterfaceNetSec where
  type : Option String := none
  config_ifname : String
deriving DecidableEq, Repr

/-- From `HostapdConfGenerator.readMode`: 802.11n is enabled when `htmode`
starts with `HT` or `VHT`. -/
def enable11n (d : WifiDeviceSec) : Bool :=
  match d.htmode with
  | none => false
  | some h => h.startsWith "HT" || h.startsWith "VHT"

/-- From `HostapdConfGenerator.readMode`: 802.11ac is enabled when `htmode`
starts with `VHT`. -/
def enable11ac (d : WifiDeviceSec) : Bool :=
  match d.htmode with
  | none => false
  | some h => h.startsWith "VHT"

/-- Model of `HostapdConfGenerator.getMainOptions`.  `resolvedIfname` is the
`_ifname` computed by `ConfigWifiIface.apply`.  Fails (Python `raise`) on an
unrecognized hardware mode.  Note the source appends `self.wifiDevice.rts`
as the value of `fragm_threshold`. -/
def getMainOptions (i : WifiIfaceSec) (d : WifiDeviceSec) (net : InterfaceNetSec)
    (resolvedIfname : String) : Except String (List (String × HVal)) := do
  let mut options : List (String × HVal) := []
  options := options ++ [("interface", .str resolvedIfname)]
  if net.type = some "bridge" then
    options := options ++ [("bridge", .str net.config_ifname)]
  options := options ++ [("ssid", .str i.ssid)]
  match d.country with
  | some c => options := options ++ [("country_code", .str c), ("ieee80211d", .int 1)]
  | none => pure ()
  match d.hwmode with
  | some h =>
      match HOSTAPD_HWMODE h with
      | some m => options := options ++ [("hw_mode", .str m)]
      | none => throw ("Unrecognized hardware mode: " ++ h)
  | none => pure ()
  options := options ++ [("channel", .int d.channel)]
  match d.beacon_int with
  | some b => options := options ++ [("beacon_int", .int b)]
  | none => pure ()
  match i.maxassoc with
  | some m => options := options ++ [("max_num_sta", .int m)]
  | none => pure ()
  match d.rts with
  | some r => options := options ++ [("rts_threshold", .int r)]
  | none => pure ()
  match d.frag with
  | some _ =>
      options := options ++
        [("fragm_threshold", match d.rts with | some r => .int r | none => .pynone)]
  | none => pure ()
  options := options ++ [("wmm_enabled", .int (if i.wmm then 1 else 0))]
  return options

/-- Model of `HostapdConfGenerator.get11nOptions`; `h` is the device's `htmode`
string (the generator only reaches this code when `htmode` is set). -/
def get11nOptions (d : WifiDeviceSec) (h : String) : List (String × HVal) :=
  let ht0 : String :=
    if h.startsWith "HT40" then "[" ++ h ++ "]"
    else if h = "VHT40" ∨ h = "VHT80" ∨ h = "VHT160" then
      if HT40_LOWER_CHANNELS.contains d.channel then "[HT40+]"
      else if HT40_UPPER_CHANNELS.contains d.channel then "[HT40-]"
      else ""
    else ""
  let ht1 := ht0 ++ (if truthyB d.short_gi_20 then "[SHORT-GI-20]" else "")
  let ht2 := ht1 ++ (if truthyB d.short_gi_40 then "[SHORT-GI-40]" else "")
  let ht3 := ht2 ++ (if truthyI d.tx_stbc then "[TX-STBC]" else "")
  let ht4 := ht3 ++
    (if d.rx_stbc = some 1 then "[RX-STBC1]"
     else if d.rx_stbc = some 2 then "[RX-STBC12]"
     else if (match d.rx_stbc with | some n => decide (n ≥ 3) | none => false) then "[RX-STBC123]"
     else "")
  let ht_capab := ht4 ++ (if truthyB d.dsss_cck_40 then "[DSSS_CCK-40]" else "")
  [("ieee80211n", HVal.int 1)]
  ++ (if ht_capab.length > 0 then [("ht_capab", HVal.str ht_capab)] else [])
  ++ (if d.require_mode = some "n" then [("require_ht", HVal.int 1)] else [])

/-- Model of `HostapdConfGenerator.get11acOptions`; `h` is the device's `htmode`
string.  A channel missing from a center-index table is a Python
`KeyError`. -/
def get11acOptions (d : WifiDeviceSec) (h : String) :
    Except String (List (String × HVal)) := do
  let head : List (String × HVal) :=
    [("ieee80211ac", .int 1)]
    ++ (if d.require_mode = some "ac" then [("require_vht", HVal.int 1)] else [])
  let (chwidth, seg0_idx) ←
    if h = "VHT40" then
      match VHT40_CENTER_INDEX d.channel with
      | some s => pure ((0 : Int), s)
      | none => throw ("KeyError: " ++ toString d.channel)
    else if h = "VHT80" then
      match VHT80_CENTER_INDEX d.channel with
      | some s => pure ((1 : Int), s)
      | none => throw ("KeyError: " ++ toString d.channel)
    else if h = "VHT160" then
      match VHT160_CENTER_INDEX d.channel with
      | some s => pure ((2 : Int), s)
      | none => throw ("KeyError: " ++ toString d.channel)
    else
      pure ((0 : Int), d.channel)
  let vc0 : String := if truthyB d.short_gi_80 then "[SHORT-GI-80]" else ""
  let vc1 := vc0 ++ (if truthyB d.short_gi_160 then "[SHORT-GI-160]" else "")
  let vc2 := vc1 ++ (if truthyB d.tx_stbc_2by1 then "[TX-STBC-2BY1]" else "")
  let vht_capab := vc2 ++
    (if d.rx_stbc = some 1 then "[RX-STBC-1]"
     else if d.rx_stbc = some 2 then "[RX-STBC-12]"
     else if d.rx_stbc = some 3 then "[RX-STBC-123]"
     else if (match d.rx_stbc with | some n => decide (n ≥ 4) | none => false) then "[RX-STBC-1234]"
     else "")
  return head
    ++ (if vht_capab.length > 0 then [("vht_capab", HVal.str vht_capab)] else [])
    ++ [("vht_oper_chwidth", .int chwidth), ("vht_oper_centr_freq_seg0_idx", .int seg0_idx)]

/-- Model of `HostapdConfGenerator.getSecurityOptions`.  With `psk2` and no key the
Python code raises a `TypeError` from `len(None)`. -/
def getSecurityOptions (i : WifiIfaceSec) : Except String (List (String × HVal)) :=
  if i.encryption = none ∨ i.encryption = some "none" then
    .ok [("wpa", .int 0)]
  else if i.encryption = some "psk2" then
    match i.key with
    | none => .error "TypeError: object of type NoneType has no len()"
    | some key =>
        let keyOption : String × HVal :=
          if key.length = 64 ∧ isHexString key then ("wpa_psk", .str key)
          else ("wpa_passphrase", .str key)
        .ok ([("wpa", .int 1), keyOption,
              ("wpa_pairwise", .str "TKIP CCMP"), ("rsn_pairwise", .str "CCMP")])
  else
    .error "Encryption type not supported"

/-- The structured content of a generated `hostapd-<section>.conf`: the
main section, the optional 802.11n and 802.11ac sections, and the security
section (`HostapdConfGenerator.generate`). -/
structure HostapdConf where
  main : List (String × HVal)
  ht : Option (List (String × HVal))
  vht : Option (List (String × HVal))
  security : List (String × HVal)
deriving DecidableEq, Repr

/-- Model of `HostapdConfGenerator.generate` at the option level: main, then
802.11n and 802.11ac when enabled by `htmode`, then security. -/
def HostapdConfGenerator.generate (i : WifiIfaceSec) (d : WifiDeviceSec)
    (net : InterfaceNetSec) (resolvedIfname : String) : Except String HostapdConf := do
  let main ← getMainOptions i d net resolvedIfname
  let ht ←
    if enable11n d then
      match d.htmode with
      | some h => pure (some (get11nOptions d h))
      | none => pure none
    else pure none
  let vht ←
    if enable11ac d then
      match d.htmode with
      | some h => do
          let o ← get11acOptions d h
          pure (some o)
      | none => pure none
    else pure none
  let security ← getSecurityOptions i
  return ⟨main, ht, vht, security⟩

/-- The `mode == "ap"` continuation of `ConfigWifiIface.apply`: section
lookups, physical vs virtual interface decision, hostapd config generation
and daemon start.  `mac` stands for the random MAC drawn by
`getRandomMAC`; `deviceLookup` and `networkLookup` are the results of the
two section lookups (`none` is a failed lookup).  Returns the emitted
`(priority, argv)` commands together with the derived files written (path
and structured content). -/
def ConfigWifiIface.applyAp (s : WifiIfaceSec) (deviceLookup : Option WifiDeviceSec)
    (networkLookup : Option InterfaceNetSec) (mac : String) (writeDir : String) :
    Except String (List (Int × List String) × List (String × HostapdConf)) := do
  let wifiDevice ← match deviceLookup with
    | some d => pure d
    | none => throw ("Failed to find section wifi-device " ++ s.device)
  let interface ← match networkLookup with
    | some n => pure n
    | none => throw ("Failed to find section interface " ++ s.network)
  let mut commands : List (Int × List String) := []
  let mut isVirtual := true
  let mut ifname := s.ifname
  if s.ifname = some wifiDevice.name then
    isVirtual := false
    commands := commands ++
      [(PRIO_CONFIG_IFACE, ["iw", "dev", wifiDevice.name, "set", "type", "__ap"])]
  else if interface.config_ifname = wifiDevice.name then
    ifname := some interface.config_ifname
    isVirtual := false
    commands := commands ++
      [(PRIO_CONFIG_IFACE, ["iw", "dev", wifiDevice.name, "set", "type", "__ap"])]
  else if s.ifname = none then
    ifname := some interface.config_ifname
  let resolvedIfname := ifname.getD ""
  if isVirtual then
    commands := commands ++
      [(PRIO_CREATE_IFACE,
        ["iw", "dev", wifiDevice.name, "interface", "add", resolvedIfname,
         "type", "__ap"]),
       (PRIO_CREATE_IFACE,
        ["ip", "link", "set", "dev", resolvedIfname, "address", mac])]
  let confPath := writeDir ++ "/hostapd-" ++ s.internalName ++ ".conf"
  let conf ← HostapdConfGenerator.generate s wifiDevice interface resolvedIfname
  let pidFile := writeDir ++ "/hostapd-" ++ s.internalName ++ ".pid"
  commands := commands ++ [(PRIO_START_DAEMON, ["hostapd", "-P", pidFile, "-B", confPath])]
  return (commands, [(confPath, conf)])

/-- Model of `ConfigWifiIface.apply`: the leading mode check (`ap` passes, `sta` and
anything else raise before any command is emitted or any file is written),
then the `ap` logic of `ConfigWifiIface.applyAp`. -/
def ConfigWifiIface.apply (s : WifiIfaceSec) (deviceLookup : Option WifiDeviceSec)
    (networkLookup : Option InterfaceNetSec) (mac : String) (writeDir : String) :
    Except String (List (Int × List String) × List (String × HostapdConf)) :=
  if s.mode = "ap" then
    ConfigWifiIface.applyAp s deviceLookup networkLookup mac writeDir
  else if s.mode = "sta" then
    .error "WiFi sta mode not implemented"
  else
    .error ("Unsupported mode (" ++ s.mode ++ ")")

/-! Part 3: chute network synthesizer (`lib/config/network.py`) -/

/-- Constant `MAX_INTERFACE_NAME_LEN`. -/
def MAX_INTERFACE_NAME_LEN : Nat := 15

/-- One entry of a chute's declared network configuration (`update.net`
values): a Python dict whose recognized keys are modelled as optional
fields (`none` means the key is absent). -/
structure NetIfaceCfg where
  intfName : Option String := none
  type : Option String := none
  ssid : Option String := none
  encryption : Option String := none
  key : Option String := none
  dhcp : Option String := none
deriving DecidableEq, Repr

/-- One interface record stored in the chute's `networkInterfaces` cache. -/
structure IfaceRecord where
  name : String
  netType : String
  externalIntf : String
  internalIntf : String
  netmask : String
  externalIpaddr : String
  internalIpaddr : String
  ipaddrWithPrefixStr : String
  device : Option String := none
  ssid : Option String := none
  encryption : Option String := none
  key : Option String := none
  dhcp : Option String := none
deriving DecidableEq, Repr

/-- Computation of `externalIntf = "{}.{}".format(update.new.name[0:prefixLen], cfg["intfName"])`
with `prefixLen = MAX_INTERFACE_NAME_LEN - len(intfName) - 1`, which can be
negative (Python then slices from the end). -/
def externalIntfName (chuteName intfName : String) : String :=
  let prefixLen : Int := (MAX_INTERFACE_NAME_LEN : Int) - intfName.length - 1
  pySliceTo chuteName prefixLen ++ "." ++ intfName

/-- Model of `getNetworkConfig`: builds the `networkInterfaces` cache from the
chute's declared interfaces.  `wifiDevs` is the cached
`networkDevices["wifi"]` list of physical radio names; the cyclic iterator
`itertools.cycle` is modelled by indexing with `wifiIdx % wifiDevs.length`
(`none` exactly when the list is empty, matching `StopIteration`).

Modelled from the spec: `networkPool.next()` (`lib/config/pool.py`, not
under src/) draws the next unused /24 from the configured supernet; it is
modelled by `pool subnetIdx`, the base address of the `subnetIdx`-th /24,
with host-side `.1`, chute-side `.2` and netmask `255.255.255.0`. -/
def getNetworkConfig (chuteName : String) (wifiDevs : List String) (pool : Nat → Nat) :
    List (String × NetIfaceCfg) → Nat → Nat → Except String (List IfaceRecord)
  | [], _, _ => .ok []
  | (name, cfg) :: rest, subnetIdx, wifiIdx =>
      if name.length > 10 then
        .error "Interface name too long"
      else
        match cfg.intfName, cfg.type with
        | some intfName, some netType =>
            let subnet := pool subnetIdx
            let internalIpaddr := ipv4Str (subnet + 2)
            let base : IfaceRecord :=
              { name := name
                netType := netType
                externalIntf := externalIntfName chuteName intfName
                internalIntf := intfName
                netmask := ipv4Str 4294967040
                externalIpaddr := ipv4Str (subnet + 1)
                internalIpaddr := internalIpaddr
                ipaddrWithPrefixStr := internalIpaddr ++ "/24"
                dhcp := cfg.dhcp }
            if netType = "wifi" then
              match wifiDevs.get? (wifiIdx % wifiDevs.length) with
              | none => .error "Missing WiFi device(s) requested by chute"
              | some device =>
                  match cfg.ssid with
                  | none => .error "Interface definition missing field(s)"
                  | some ssid =>
                      match getNetworkConfig chuteName wifiDevs pool rest
                          (subnetIdx + 1) (wifiIdx + 1) with
                      | .error e => .error e
                      | .ok l =>
                          .ok ({ base with
                                   device := some device
                                   ssid := some ssid
                                   encryption := cfg.encryption
                                   key := cfg.key } :: l)
            else
              match getNetworkConfig chuteName wifiDevs pool rest
                  (subnetIdx + 1) wifiIdx with
              | .error e => .error e
              | .ok l => .ok (base :: l)
        | _, _ => .error "Interface definition missing field(s)"

/-- A declared chute interface entry is accepted by `getNetworkConfig`'s
checks: map key at most 10 characters, `intfName` and `type` present, and
`ssid` present when the type is `wifi`. -/
def validEntry (p : String × NetIfaceCfg) : Prop :=
  p.1.length ≤ 10 ∧ p.2.intfName.isSome ∧ p.2.type.isSome ∧
    (p.2.type = some "wifi" → p.2.ssid.isSome)

instance (p : String × NetIfaceCfg) : Decidable (validEntry p) := by
  unfold validEntry; infer_instance

/-- The physical radios assigned to the wifi-type records of a
`networkInterfaces` cache, in order. -/
def wifiDevicesOf (l : List IfaceRecord) : List (Option String) :=
  (l.filter (fun r => r.netType == "wifi")).map (fun r => r.device)

/-- The number of wifi-type entries of a declared network configuration. -/
def countWifi (cfgs : List (String × NetIfaceCfg)) : Nat :=
  (cfgs.filter (fun p => p.2.type == some "wifi")).length

/-- Cyclic round-robin draw from `ws` starting at position `wi`: the
assignment `itertools.cycle` produces for `count` consecutive requests. -/
def roundRobin (ws : List String) (wi count : Nat) : List (Option String) :=
  (List.range count).map (fun k => ws.get? ((wi + k) % ws.length))

/-- A concrete subnet pool for concrete runs: the `i`-th /24 of
`192.168.128.0/17`. -/
def poolC : Nat → Nat := fun i => 3232268288 + 256 * i

/-! Part 4: container adapter (`lib/container/dockerapi.py`) -/

/-- The outcome of `buildImage` when it returns normally. -/
inductive BuildAction where
  | pulledImage
  | builtFromDockerfile
  | builtFromDownload
deriving DecidableEq, Repr

/-- Model of `buildImage`: with an `external_image` try the registry pull first and
return on success; on pull failure fall back to a local build from the
update's `dockerfile`, else its `download` source, else raise.  The outcome
of `_pullImage` and `_buildImage` is the environment's, passed as `pullOk`
and `buildOk`. -/
def buildImage (hasExternalImage pullOk hasDockerfile hasDownload buildOk : Bool) :
    Except String BuildAction := do
  if hasExternalImage then
    if pullOk then
      return .pulledImage
  if hasDockerfile then
    if buildOk then
      return .builtFromDockerfile
    else
      throw "Building docker image failed; check your Dockerfile for errors."
  else if hasDownload then
    if buildOk then
      return .builtFromDownload
    else
      throw "Building docker image failed; check your Dockerfile for errors."
  else
    throw "No Dockerfile or download location supplied."

/-- Model of `setup_net_interfaces`: for each record of the `networkInterfaces`
cache whose `netType` is `wifi`, spawn pipework with argv
`<tool> <externalIntf> -i <internalIntf> <chuteName> <ipaddrWithPrefix>`;
all other records are skipped by the `continue`.  Returns the list of
spawned argvs in order. -/
def setup_net_interfaces (chuteName : String) : List IfaceRecord → List (List String)
  | [] => []
  | i :: rest =>
      if i.netType = "wifi" then
        ["/apps/paradrop/current/bin/pipework", i.externalIntf, "-i",
         i.internalIntf, chuteName, i.ipaddrWithPrefixStr]
          :: setup_net_interfaces chuteName rest
      else
        setup_net_interfaces chuteName rest

/-- Python dict assignment `d[k] = v` on an association list: any previous
binding of `k` is replaced. -/
def dinsert (env : List (String × String)) (k v : String) : List (String × String) :=
  env.filter (fun p => p.1 != k) ++ [(k, v)]

/-- Python dict lookup `d.get(k)` on an association list. -/
def dlookup (env : List (String × String)) (k : String) : Option String :=
  (env.find? (fun p => p.1 == k)).map (fun p => p.2)

/-- Model of `prepare_environment`: copy the chute's user-supplied environment and
set the Paradrop variables, `PARADROP_CHUTE_VERSION` only when the chute
has a `version` attribute.  The original environment is untouched (the
code copies it; the embedding is pure). -/
def prepare_environment (chuteName routerId dataDir systemDir : String)
    (version : Option String) (userEnv : List (String × String)) :
    List (String × String) :=
  let env := dinsert userEnv "PARADROP_CHUTE_NAME" chuteName
  let env := dinsert env "PARADROP_ROUTER_ID" routerId
  let env := dinsert env "PARADROP_DATA_DIR" dataDir
  let env := dinsert env "PARADROP_SYSTEM_DIR" systemDir
  match version with
  | some v => dinsert env "PARADROP_CHUTE_VERSION" v
  | none => env

/-! Theorems -/

/-- C7: for every dhcp section, `undoCommands` with an absent or unreadable
PID file returns an empty command list (after logging a warning) rather
than raising; when the PID file is readable it returns exactly one kill
command whose argument is the PID read (stripped) from the file. -/
theorem dhcp_undo_commands (pidContent : Option String) :
    (pidContent = none → ConfigDhcp.undoCommands pidContent = []) ∧
    (∀ c, pidContent = some c →
      ConfigDhcp.undoCommands pidContent =
        [(PRIO_START_DAEMON, ["kill", pyStrip c])]) := by
  constructor
  · intro h; subst h; rfl
  · intro c h; subst h; rfl

theorem dhcp_undo_commands_witness :
    ConfigDhcp.undoCommands none = [] ∧
    ConfigDhcp.undoCommands (some " 12345\n") =
      [(PRIO_START_DAEMON, ["kill", "12345"])] :=
  ⟨(dhcp_undo_commands none).1 rfl,
   (dhcp_undo_commands (some " 12345\n")).2 " 12345\n" rfl⟩

/-- C8: for an update whose new chute has an `external_image`: a
successful registry pull returns without a local build; a failed pull
falls back to a local build from the dockerfile, else the download source;
with neither local source present it raises "No Dockerfile or download
location supplied.". -/
theorem buildImage_pull_fallback :
    (∀ hd hdl bo, buildImage true true hd hdl bo = .ok .pulledImage) ∧
    (∀ hdl bo, buildImage true false true hdl bo =
      (if bo then .ok .builtFromDockerfile
       else .error "Building docker image failed; check your Dockerfile for errors.")) ∧
    (∀ bo, buildImage true false false true bo =
      (if bo then .ok .builtFromDownload
       else .error "Building docker image failed; check your Dockerfile for errors.")) ∧
    (∀ bo, buildImage true false false false bo =
      .error "No Dockerfile or download location supplied.") := by
  refine ⟨?_, ?_, ?_, ?_⟩
  · intro hd hdl bo; cases hd <;> cases hdl <;> cases bo <;> rfl
  · intro hdl bo; cases hdl <;> cases bo <;> rfl
  · intro bo; cases bo <;> rfl
  · intro bo; cases bo <;> rfl

/-- C6: applying a wifi-iface with `mode=sta` raises "WiFi sta mode not
implemented", and any mode other than `ap` or `sta` raises an unsupported
mode error; in both cases the result carries no commands and no file
writes, so host state is untouched. -/
theorem wifi_sta_mode_rejected (s : WifiIfaceSec) (deviceLookup : Option WifiDeviceSec)
    (networkLookup : Option InterfaceNetSec) (mac writeDir : String) :
    (s.mode = "sta" →
      ConfigWifiIface.apply s deviceLookup networkLookup mac writeDir =
        .error "WiFi sta mode not implemented") ∧
    (s.mode ≠ "ap" → s.mode ≠ "sta" →
      ConfigWifiIface.apply s deviceLookup networkLookup mac writeDir =
        .error ("Unsupported mode (" ++ s.mode ++ ")")) := by
  constructor
  · intro h
    simp [ConfigWifiIface.apply, h]
  · intro h1 h2
    simp [ConfigWifiIface.apply, h1, h2]

theorem wifi_sta_mode_rejected_witness :
    ConfigWifiIface.apply
      { device := "radio", mode := "sta", ssid := "s", network := "lan",
        internalName := "ap1" } none none "02:00:00:00:00:01" "/run" =
      .error "WiFi sta mode not implemented" ∧
    ConfigWifiIface.apply
      { device := "radio", mode := "adhoc", ssid := "s", network := "lan",
        internalName := "ap1" } none none "02:00:00:00:00:01" "/run" =
      .error "Unsupported mode (adhoc)" :=
  ⟨(wifi_sta_mode_rejected
      { device := "radio", mode := "sta", ssid := "s", network := "lan",
        internalName := "ap1" } none none "02:00:00:00:00:01" "/run").1 rfl,
   (wifi_sta_mode_rejected
      { device := "radio", mode := "adhoc", ssid := "s", network := "lan",
        internalName := "ap1" } none none "02:00:00:00:00:01" "/run").2
     (by decide) (by decide)⟩

/-- C5: counter-evidence at a concrete input.  For a wifi-device with
`frag=2000` and `rts=1000`, the generated main section contains
`fragm_threshold=1000` — the `rts` value, not the `frag` value — because
`getMainOptions` appends `self.wifiDevice.rts` as the value of
`fragm_threshold` (wireless.py line 392); `rts_threshold` is correct. -/
theorem fragm_threshold_uses_rts :
    getMainOptions
      { device := "radio", mode := "ap", ssid := "s", network := "lan",
        internalName := "ap1" }
      { name := "radio", channel := 6, frag := some 2000, rts := some 1000 }
      { config_ifname := "br-lan" } "wlan0" =
      .ok [("interface", .str "wlan0"), ("ssid", .str "s"), ("channel", .int 6),
           ("rts_threshold", .int 1000), ("fragm_threshold", .int 1000),
           ("wmm_enabled", .int 1)] ∧
    ("fragm_threshold", HVal.int 2000) ∉
      [(("interface" : String), HVal.str "wlan0"), ("ssid", .str "s"),
       ("channel", .int 6), ("rts_threshold", .int 1000),
       ("fragm_threshold", .int 1000), ("wmm_enabled", .int 1)] := by
  constructor
  · rfl
  · decide

/-- C4: counterexample.  A record in the `networkInterfaces` cache whose
`netType` is not `wifi` (here `lan`) is skipped by `setup_net_interfaces`:
no pipework invocation is spawned for it, contradicting "whatever its
netType ... spawned exactly once". -/
theorem pipework_skips_non_wifi :
    setup_net_interfaces "mychute"
      [{ name := "e0", netType := "lan", externalIntf := "mychute.eth0",
         internalIntf := "eth0", netmask := "255.255.255.0",
         externalIpaddr := "192.168.130.1", internalIpaddr := "192.168.130.2",
         ipaddrWithPrefixStr := "192.168.130.2/24" }] = [] ∧
    ["/apps/paradrop/current/bin/pipework", "mychute.eth0", "-i", "eth0",
     "mychute", "192.168.130.2/24"] ∉
      setup_net_interfaces "mychute"
        [{ name := "e0", netType := "lan", externalIntf := "mychute.eth0",
           internalIntf := "eth0", netmask := "255.255.255.0",
           externalIpaddr := "192.168.130.1", internalIpaddr := "192.168.130.2",
           ipaddrWithPrefixStr := "192.168.130.2/24" }] := by
  constructor
  · rfl
  · decide

/-- C4 (amended): after container start, pipework is spawned exactly once
per cached interface record whose `netType` is `wifi`, with argv
`<tool> <externalIntf> -i <internalIntf> <chuteName> <ipaddrWithPrefix>`;
records of any other netType are skipped. -/
theorem pipework_wifi_only (chuteName : String) (ifaces : List IfaceRecord) :
    setup_net_interfaces chuteName ifaces =
      (ifaces.filter (fun i => i.netType == "wifi")).map
        (fun i => ["/apps/paradrop/current/bin/pipework", i.externalIntf, "-i",
                   i.internalIntf, chuteName, i.ipaddrWithPrefixStr]) := by
  induction ifaces with
  | nil => rfl
  | cons i rest ih =>
      by_cases h : i.netType = "wifi" <;>
        simp [setup_net_interfaces, h, List.filter_cons, ih]

/-- C1: for every dhcp section whose linked interface resolves with a
valid ipaddr and netmask, the `dhcp-range` line emitted into
`dnsmasq-<interface>.conf` has first address `network_address + start`,
last address `first + limit`, and the section's leasetime as the third
field. -/
theorem dhcp_range_line (s : DhcpSection) (iface : InterfaceSec)
    (dnsmasq : DnsmasqSec) (writeDir : String) (ifaceLookup : Option InterfaceSec)
    (hres : ifaceLookup = some iface)
    (_hip : iface.ipaddr < 2 ^ 32)
    (_hmask : isValidNetmask iface.netmask)
    (_hrange : networkAddress iface.ipaddr iface.netmask + s.start + s.limit < 2 ^ 32) :
    ∃ lines cmds,
      ConfigDhcp.commands s ifaceLookup dnsmasq writeDir =
        .ok (writeDir ++ "/dnsmasq-" ++ s.interface ++ ".conf", lines, cmds) ∧
      lines.get? 6 = some ("dhcp-range=" ++
        ipv4Str (networkAddress iface.ipaddr iface.netmask + s.start) ++ "," ++
        ipv4Str (networkAddress iface.ipaddr iface.netmask + s.start + s.limit) ++ "," ++
        s.leasetime) := by
  subst hres
  refine ⟨_, _, rfl, ?_⟩
  simp [dhcpConfLines, List.get?]

theorem dhcp_range_line_witness :
    ∃ lines cmds,
      ConfigDhcp.commands ⟨"lan", "12h", 100, 100, [], "lan", "/etc/config/dhcp"⟩
        (some ⟨"eth1", 3232244034, 4294967040⟩) ⟨false, none⟩ "/run" =
        .ok ("/run" ++ "/dnsmasq-" ++ "lan" ++ ".conf", lines, cmds) ∧
      lines.get? 6 = some ("dhcp-range=" ++
        ipv4Str (networkAddress 3232244034 4294967040 + 100) ++ "," ++
        ipv4Str (networkAddress 3232244034 4294967040 + 100 + 100) ++ "," ++
        "12h") :=
  dhcp_range_line ⟨"lan", "12h", 100, 100, [], "lan", "/etc/config/dhcp"⟩
    ⟨"eth1", 3232244034, 4294967040⟩ ⟨false, none⟩ "/run"
    (some ⟨"eth1", 3232244034, 4294967040⟩) rfl (by decide) (by decide) (by decide)

/-- C2: for a wifi-iface with `encryption=psk2` and a key, the generated
hostapd security options contain `wpa=1`, `wpa_pairwise=TKIP CCMP`,
`rsn_pairwise=CCMP`, and exactly one of `wpa_psk` (when the key is exactly
64 hex characters) or `wpa_passphrase` (otherwise); `encryption=none` or
absent yields `wpa=0`; any other encryption raises "Encryption type not
supported". -/
theorem wifi_security_options (s : WifiIfaceSec) :
    (∀ k, s.encryption = some "psk2" → s.key = some k →
      ∃ opts, getSecurityOptions s = .ok opts ∧
        ("wpa", HVal.int 1) ∈ opts ∧
        ("wpa_pairwise", HVal.str "TKIP CCMP") ∈ opts ∧
        ("rsn_pairwise", HVal.str "CCMP") ∈ opts ∧
        (k.length = 64 ∧ isHexString k →
          ("wpa_psk", HVal.str k) ∈ opts ∧ ∀ v, ("wpa_passphrase", v) ∉ opts) ∧
        (¬(k.length = 64 ∧ isHexString k) →
          ("wpa_passphrase", HVal.str k) ∈ opts ∧ ∀ v, ("wpa_psk", v) ∉ opts)) ∧
    ((s.encryption = none ∨ s.encryption = some "none") →
      getSecurityOptions s = .ok [("wpa", HVal.int 0)]) ∧
    (∀ e, s.encryption = some e → e ≠ "none" → e ≠ "psk2" →
      getSecurityOptions s = .error "Encryption type not supported") := by
  refine ⟨?_, ?_, ?_⟩
  · intro k hpsk hkey
    rw [getSecurityOptions, if_neg (by simp [hpsk]), if_pos hpsk, hkey]
    dsimp only
    by_cases hhex : k.length = 64 ∧ isHexString k
    · refine ⟨_, by rw [if_pos hhex], by simp, by simp, by simp, fun _ => ⟨by simp, ?_⟩,
        fun h => absurd hhex h⟩
      intro v hv
      simp at hv
    · refine ⟨_, by rw [if_neg hhex], by simp, by simp, by simp, fun h => absurd h hhex,
        fun _ => ⟨by simp, ?_⟩⟩
      intro v hv
      simp at hv
  · intro h
    rw [getSecurityOptions, if_pos h]
  · intro e he h1 h2
    rw [getSecurityOptions, if_neg (by simp [he, h1]), if_neg (by simp [he, h2])]

theorem wifi_security_options_witness :
    ∃ opts, getSecurityOptions
        { device := "radio", mode := "ap", ssid := "s", network := "lan",
          encryption := some "psk2", key := some "hunter2",
          internalName := "ap1" } = .ok opts ∧
      ("wpa", HVal.int 1) ∈ opts ∧
      ("wpa_pairwise", HVal.str "TKIP CCMP") ∈ opts ∧
      ("rsn_pairwise", HVal.str "CCMP") ∈ opts ∧
      (("hunter2" : String).length = 64 ∧ isHexString "hunter2" →
        ("wpa_psk", HVal.str "hunter2") ∈ opts ∧ ∀ v, ("wpa_passphrase", v) ∉ opts) ∧
      (¬(("hunter2" : String).length = 64 ∧ isHexString "hunter2") →
        ("wpa_passphrase", HVal.str "hunter2") ∈ opts ∧ ∀ v, ("wpa_psk", v) ∉ opts) :=
  (wifi_security_options
    { device := "radio", mode := "ap", ssid := "s", network := "lan",
      encryption := some "psk2", key := some "hunter2",
      internalName := "ap1" }).1 "hunter2" rfl rfl

/-- Filtering out the bindings of key `k` does not change `find?` for a
different key `k'`. -/
theorem find?_filter_ne (env : List (String × String)) (k k' : String) (h : k' ≠ k) :
    (env.filter (fun p => p.1 != k)).find? (fun p => p.1 == k') =
      env.find? (fun p => p.1 == k') := by
  induction env with
  | nil => rfl
  | cons p rest ih =>
      rw [List.filter_cons]
      by_cases hp : p.1 = k
      · have hb : (p.1 != k) = false := by simp [hp]
        rw [hb, if_neg (by simp)]
        rw [List.find?_cons_of_neg _ (by simp [hp]; exact fun hh => h hh.symm)]
        exact ih
      · have hb : (p.1 != k) = true := by simp [hp]
        rw [hb, if_pos rfl]
        by_cases hk' : p.1 = k'
        · rw [List.find?_cons_of_pos _ (by simp [hk']),
              List.find?_cons_of_pos _ (by simp [hk'])]
        · rw [List.find?_cons_of_neg _ (by simp [hk']),
              List.find?_cons_of_neg _ (by simp [hk'])]
          exact ih

/-- Inserting a binding makes it the value found for its key. -/
theorem dlookup_dinsert_same (env : List (String × String)) (k v : String) :
    dlookup (dinsert env k v) k = some v := by
  unfold dlookup dinsert
  rw [List.find?_append]
  have h1 : (env.filter (fun p => p.1 != k)).find? (fun p => p.1 == k) = none := by
    apply List.find?_eq_none.mpr
    intro x hx
    have hmem := List.of_mem_filter hx
    simp at hmem ⊢
    exact hmem
  rw [h1, Option.none_or, List.find?_cons_of_pos _ (by simp)]
  rfl

/-- Inserting a binding leaves lookups of other keys unchanged. -/
theorem dlookup_dinsert_other (env : List (String × String)) (k v k' : String)
    (h : k' ≠ k) : dlookup (dinsert env k v) k' = dlookup env k' := by
  unfold dlookup dinsert
  rw [List.find?_append]
  have h2 : ([(k, v)].find? (fun p => p.1 == k')) = none := by
    apply List.find?_eq_none.mpr
    intro x hx
    simp at hx
    subst hx
    simp
    exact fun hh => h hh.symm
  rw [h2, Option.or_none, find?_filter_ne env k k' h]

/-- C9 (counterexample): when the chute has no version but the user
environment already binds `PARADROP_CHUTE_VERSION`, the returned map still
contains that key (with the user's value), so the map does not contain
`PARADROP_CHUTE_VERSION` "exactly when the chute has a version". -/
theorem prepare_environment_version_counterexample :
    dlookup (prepare_environment "c" "r" "/data" "/system" none
      [("PARADROP_CHUTE_VERSION", "user")]) "PARADROP_CHUTE_VERSION" =
      some "user" := by
  rfl

/-- C9 (amended): `prepare_environment` always binds PARADROP_CHUTE_NAME,
PARADROP_ROUTER_ID, PARADROP_DATA_DIR and PARADROP_SYSTEM_DIR to the
system values, overwriting same-named user entries; it binds
PARADROP_CHUTE_VERSION to the chute's version whenever the chute has one
(when it has none, a user-supplied binding of that key is preserved);
every other user entry is unchanged, and the chute's own environment map
is untouched since a copy is modified (the embedding is pure). -/
theorem prepare_environment_spec (n r d sd : String) (v : Option String)
    (env : List (String × String)) :
    dlookup (prepare_environment n r d sd v env) "PARADROP_CHUTE_NAME" = some n ∧
    dlookup (prepare_environment n r d sd v env) "PARADROP_ROUTER_ID" = some r ∧
    dlookup (prepare_environment n r d sd v env) "PARADROP_DATA_DIR" = some d ∧
    dlookup (prepare_environment n r d sd v env) "PARADROP_SYSTEM_DIR" = some sd ∧
    (∀ ver, v = some ver →
      dlookup (prepare_environment n r d sd v env) "PARADROP_CHUTE_VERSION" = some ver) ∧
    (v = none →
      dlookup (prepare_environment n r d sd v env) "PARADROP_CHUTE_VERSION" =
        dlookup env "PARADROP_CHUTE_VERSION") ∧
    (∀ k, k ≠ "PARADROP_CHUTE_NAME" → k ≠ "PARADROP_ROUTER_ID" →
      k ≠ "PARADROP_DATA_DIR" → k ≠ "PARADROP_SYSTEM_DIR" →
      k ≠ "PARADROP_CHUTE_VERSION" →
      dlookup (prepare_environment n r d sd v env) k = dlookup env k) := by
  cases v with
  | none =>
      refine ⟨?_, ?_, ?_, ?_, ?_, ?_, ?_⟩
      · rw [prepare_environment]
        rw [dlookup_dinsert_other _ _ _ _ (by decide),
            dlookup_dinsert_other _ _ _ _ (by decide),
            dlookup_dinsert_other _ _ _ _ (by decide)]
        exact dlookup_dinsert_same _ _ _
      · rw [prepare_environment]
        rw [dlookup_dinsert_other _ _ _ _ (by decide),
            dlookup_dinsert_other _ _ _ _ (by decide)]
        exact dlookup_dinsert_same _ _ _
      · rw [prepare_environment]
        rw [dlookup_dinsert_other _ _ _ _ (by decide)]
        exact dlookup_dinsert_same _ _ _
      · rw [prepare_environment]
        exact dlookup_dinsert_same _ _ _
      · intro ver hver; exact absurd hver (by simp)
      · intro _
        rw [prepare_environment]
        rw [dlookup_dinsert_other _ _ _ _ (by decide),
            dlookup_dinsert_other _ _ _ _ (by decide),
            dlookup_dinsert_other _ _ _ _ (by decide),
            dlookup_dinsert_other _ _ _ _ (by decide)]
      · intro k h1 h2 h3 h4 _
        rw [prepare_environment]
        rw [dlookup_dinsert_other _ _ _ _ h4, dlookup_dinsert_other _ _ _ _ h3,
            dlookup_dinsert_other _ _ _ _ h2, dlookup_dinsert_other _ _ _ _ h1]
  | some ver0 =>
      refine ⟨?_, ?_, ?_, ?_, ?_, ?_, ?_⟩
      · rw [prepare_environment]
        rw [dlookup_dinsert_other _ _ _ _ (by decide),
            dlookup_dinsert_other _ _ _ _ (by decide),
            dlookup_dinsert_other _ _ _ _ (by decide),
            dlookup_dinsert_other _ _ _ _ (by decide)]
        exact dlookup_dinsert_same _ _ _
      · rw [prepare_environment]
        rw [dlookup_dinsert_other _ _ _ _ (by decide),
            dlookup_dinsert_other _ _ _ _ (by decide),
            dlookup_dinsert_other _ _ _ _ (by decide)]
        exact dlookup_dinsert_same _ _ _
      · rw [prepare_environment]
        rw [dlookup_dinsert_other _ _ _ _ (by decide),
            dlookup_dinsert_other _ _ _ _ (by decide)]
        exact dlookup_dinsert_same _ _ _
      · rw [prepare_environment]
        rw [dlookup_dinsert_other _ _ _ _ (by decide)]
        exact dlookup_dinsert_same _ _ _
      · intro ver hver
        cases hver
        rw [prepare_environment]
        exact dlookup_dinsert_same _ _ _
      · intro h; exact absurd h (by simp)
      · intro k h1 h2 h3 h4 h5
        rw [prepare_environment]
        rw [dlookup_dinsert_other _ _ _ _ h5, dlookup_dinsert_other _ _ _ _ h4,
            dlookup_dinsert_other _ _ _ _ h3, dlookup_dinsert_other _ _ _ _ h2,
            dlookup_dinsert_other _ _ _ _ h1]

theorem prepare_environment_spec_witness :
    dlookup (prepare_environment "c" "r" "/data" "/system" (some "1.0")
      [("FOO", "bar")]) "PARADROP_CHUTE_NAME" = some "c" ∧
    dlookup (prepare_environment "c" "r" "/data" "/system" (some "1.0")
      [("FOO", "bar")]) "PARADROP_CHUTE_VERSION" = some "1.0" ∧
    dlookup (prepare_environment "c" "r" "/data" "/system" (some "1.0")
      [("FOO", "bar")]) "FOO" = some "bar" := by
  obtain ⟨h1, -, -, -, h5, -, h7⟩ :=
    prepare_environment_spec "c" "r" "/data" "/system" (some "1.0") [("FOO", "bar")]
  exact ⟨h1, h5 "1.0" rfl,
    (h7 "FOO" (by decide) (by decide) (by decide) (by decide) (by decide)).trans rfl⟩

/-- Unfolding lemma for `String.mk` length. -/
theorem string_mk_length (l : List Char) : (String.mk l).length = l.length := rfl

/-- When the in-chute interface name has at most 14 characters, the host
name `chute.name[0:15-len-1] ++ "." ++ name` has at most 15. -/
theorem externalIntfName_length (c s : String) (h : s.length ≤ 14) :
    (externalIntfName c s).length ≤ 15 := by
  simp only [externalIntfName, pySliceTo, MAX_INTERFACE_NAME_LEN]
  rw [if_neg (by omega)]
  rw [String.length_append, String.length_append, string_mk_length, List.length_take]
  have hdot : ("." : String).length = 1 := rfl
  rw [hdot]
  omega

/-- Every record produced by `getNetworkConfig` has an `externalIntf` of
the form `externalIntfName chuteName intfName` for the `intfName` of one
of the declared entries. -/
theorem getNetworkConfig_mem_shape (c : String) (ws : List String) (pool : Nat → Nat) :
    ∀ cfgs si wi l, getNetworkConfig c ws pool cfgs si wi = .ok l →
      ∀ r ∈ l, ∃ s, r.externalIntf = externalIntfName c s ∧
        ∃ p, p ∈ cfgs ∧ p.2.intfName = some s := by
  intro cfgs
  induction cfgs with
  | nil =>
      intro si wi l hok r hr
      simp only [getNetworkConfig] at hok
      cases hok
      simp at hr
  | cons q rest ih =>
      intro si wi l hok r hr
      obtain ⟨name, cfg⟩ := q
      simp only [getNetworkConfig] at hok
      by_cases hlen : name.length > 10
      · rw [if_pos hlen] at hok; simp at hok
      rw [if_neg hlen] at hok
      cases hIntf : cfg.intfName with
      | none => rw [hIntf] at hok; simp at hok
      | some intf =>
      cases hTy : cfg.type with
      | none => rw [hIntf, hTy] at hok; simp at hok
      | some ty =>
      rw [hIntf, hTy] at hok
      dsimp only at hok
      by_cases hw : ty = "wifi"
      · rw [if_pos hw] at hok
        cases hget : ws.get? (wi % ws.length) with
        | none => rw [hget] at hok; simp at hok
        | some dev =>
        rw [hget] at hok
        cases hssid : cfg.ssid with
        | none => rw [hssid] at hok; simp at hok
        | some ssid =>
        rw [hssid] at hok
        cases hrec : getNetworkConfig c ws pool rest (si + 1) (wi + 1) with
        | error e => rw [hrec] at hok; simp at hok
        | ok l' =>
        rw [hrec] at hok
        injection hok with hok
        subst hok
        rcases List.mem_cons.mp hr with hhead | htail
        · subst hhead
          exact ⟨intf, rfl, (name, cfg), List.mem_cons_self _ _, hIntf⟩
        · obtain ⟨s, hs, p, hp, hpi⟩ := ih (si + 1) (wi + 1) l' hrec r htail
          exact ⟨s, hs, p, List.mem_cons_of_mem _ hp, hpi⟩
      · rw [if_neg hw] at hok
        cases hrec : getNetworkConfig c ws pool rest (si + 1) wi with
        | error e => rw [hrec] at hok; simp at hok
        | ok l' =>
        rw [hrec] at hok
        injection hok with hok
        subst hok
        rcases List.mem_cons.mp hr with hhead | htail
        · subst hhead
          exact ⟨intf, rfl, (name, cfg), List.mem_cons_self _ _, hIntf⟩
        · obtain ⟨s, hs, p, hp, hpi⟩ := ih (si + 1) wi l' hrec r htail
          exact ⟨s, hs, p, List.mem_cons_of_mem _ hp, hpi⟩

/-- C3 (counterexample): with chute name `x` and a declared interface
whose map key `eth0` passes the 10-character check but whose `intfName`
has 15 characters, `getNetworkConfig` stores an `externalIntf` of 16
characters — the claim's bound fails because `intfName` itself is never
length-checked (Python's negative slice bound truncates from the end). -/
theorem externalIntf_claim_counterexample :
    getNetworkConfig "x" ["radio"] poolC
      [("eth0", { intfName := some "abcdefghijklmno", type := some "lan" })] 0 0 =
      .ok [{ name := "eth0", netType := "lan", externalIntf := ".abcdefghijklmno",
             internalIntf := "abcdefghijklmno", netmask := "255.255.255.0",
             externalIpaddr := "192.168.128.1", internalIpaddr := "192.168.128.2",
             ipaddrWithPrefixStr := "192.168.128.2/24" }] ∧
    (".abcdefghijklmno" : String).length = 16 := by
  constructor
  · rfl
  · rfl

/-- C3 (amended): whenever every declared `intfName` has at most 14
characters, every `externalIntf` stored in the `networkInterfaces` cache
has length at most 15.  (The unamended bound, quantified over every
possible `intfName`, fails; see the counterexample.) -/
theorem externalIntf_length_bound (c : String) (ws : List String) (pool : Nat → Nat)
    (cfgs : List (String × NetIfaceCfg)) (si wi : Nat) (l : List IfaceRecord)
    (h14 : ∀ p ∈ cfgs, ∀ s, p.2.intfName = some s → s.length ≤ 14)
    (hok : getNetworkConfig c ws pool cfgs si wi = .ok l) :
    ∀ r ∈ l, r.externalIntf.length ≤ 15 := by
  intro r hr
  obtain ⟨s, hs, p, hp, hpi⟩ := getNetworkConfig_mem_shape c ws pool cfgs si wi l hok r hr
  rw [hs]
  exact externalIntfName_length c s (h14 p hp s hpi)

theorem externalIntf_length_bound_witness :
    ({ name := "e0", netType := "lan", externalIntf := "mychute.eth0",
       internalIntf := "eth0", netmask := "255.255.255.0",
       externalIpaddr := "192.168.128.1", internalIpaddr := "192.168.128.2",
       ipaddrWithPrefixStr := "192.168.128.2/24" } : IfaceRecord).externalIntf.length
      ≤ 15 := by
  apply externalIntf_length_bound "mychute" [] poolC
    [("e0", { intfName := some "eth0", type := some "lan" })] 0 0
    [{ name := "e0", netType := "lan", externalIntf := "mychute.eth0",
       internalIntf := "eth0", netmask := "255.255.255.0",
       externalIpaddr := "192.168.128.1", internalIpaddr := "192.168.128.2",
       ipaddrWithPrefixStr := "192.168.128.2/24" }]
  · intro p hp s hs
    simp at hp
    rw [hp] at hs
    simp at hs
    rw [← hs]
    decide
  · rfl
  · simp

/-- With a non-empty wifi device list, the cyclic iterator never raises:
no run of `getNetworkConfig` produces the missing-WiFi-device error. -/
theorem getNetworkConfig_no_missing (c : String) (ws : List String) (pool : Nat → Nat)
    (hws : ws ≠ []) :
    ∀ cfgs si wi, getNetworkConfig c ws pool cfgs si wi ≠
      .error "Missing WiFi device(s) requested by chute" := by
  intro cfgs
  induction cfgs with
  | nil => intro si wi h; simp [getNetworkConfig] at h
  | cons q rest ih =>
      intro si wi h
      obtain ⟨name, cfg⟩ := q
      simp only [getNetworkConfig] at h
      by_cases hlen : name.length > 10
      · rw [if_pos hlen] at h; simp at h
      rw [if_neg hlen] at h
      cases hIntf : cfg.intfName with
      | none => rw [hIntf] at h; simp at h
      | some intf =>
      cases hTy : cfg.type with
      | none => rw [hIntf, hTy] at h; simp at h
      | some ty =>
      rw [hIntf, hTy] at h
      dsimp only at h
      by_cases hw : ty = "wifi"
      · rw [if_pos hw] at h
        cases hget : ws.get? (wi % ws.length) with
        | none =>
            have hlp : 0 < ws.length := List.length_pos.mpr hws
            have hmod := Nat.mod_lt wi hlp
            rw [List.get?_eq_none] at hget
            omega
        | some dev =>
        rw [hget] at h
        cases hssid : cfg.ssid with
        | none => rw [hssid] at h; simp at h
        | some ssid =>
        rw [hssid] at h
        cases hrec : getNetworkConfig c ws pool rest (si + 1) (wi + 1) with
        | error e =>
            rw [hrec] at h
            simp only [Except.error.injEq] at h
            exact ih (si + 1) (wi + 1) (by rw [hrec, h])
        | ok l' => rw [hrec] at h; simp at h
      · rw [if_neg hw] at h
        cases hrec : getNetworkConfig c ws pool rest (si + 1) wi with
        | error e =>
            rw [hrec] at h
            simp only [Except.error.injEq] at h
            exact ih (si + 1) wi (by rw [hrec, h])
        | ok l' => rw [hrec] at h; simp at h

/-- With an empty wifi device list, a valid configuration containing at
least one wifi-type interface fails with the missing-WiFi-device error. -/
theorem getNetworkConfig_missing_when_empty (c : String) (pool : Nat → Nat) :
    ∀ cfgs si wi, (∀ p ∈ cfgs, validEntry p) →
      (∃ p ∈ cfgs, p.2.type = some "wifi") →
      getNetworkConfig c [] pool cfgs si wi =
        .error "Missing WiFi device(s) requested by chute" := by
  intro cfgs
  induction cfgs with
  | nil => intro si wi _ hex; simp at hex
  | cons q rest ih =>
      intro si wi hvalid hex
      obtain ⟨name, cfg⟩ := q
      obtain ⟨hlen, hintf, hty, -⟩ := hvalid _ (List.mem_cons_self _ _)
      dsimp only at hlen hintf hty
      obtain ⟨intf, hIntf⟩ := Option.isSome_iff_exists.mp hintf
      obtain ⟨ty, hTy⟩ := Option.isSome_iff_exists.mp hty
      simp only [getNetworkConfig]
      rw [if_neg (by omega), hIntf, hTy]
      dsimp only
      by_cases hw : ty = "wifi"
      · rw [if_pos hw]
        rfl
      · rw [if_neg hw]
        have hrest : ∃ p ∈ rest, p.2.type = some "wifi" := by
          rcases hex with ⟨p, hp, hpty⟩
          rcases List.mem_cons.mp hp with he | hm
          · subst he
            rw [hTy] at hpty
            injection hpty with hh
            exact absurd hh hw
          · exact ⟨p, hm, hpty⟩
        rw [ih (si + 1) wi (fun p hp => hvalid p (List.mem_cons_of_mem _ hp)) hrest]

/-- Unrolling one draw of the cyclic round-robin assignment. -/
theorem roundRobin_succ (ws : List String) (wi k : Nat) :
    roundRobin ws wi (k + 1) = ws.get? (wi % ws.length) :: roundRobin ws (wi + 1) k := by
  unfold roundRobin
  rw [List.range_succ_eq_map, List.map_cons, List.map_map]
  congr 1
  apply List.map_congr_left
  intro j _
  simp only [Function.comp_apply]
  have hj : wi + Nat.succ j = wi + 1 + j := by omega
  rw [hj]

/-- With a non-empty wifi device list and a valid configuration,
`getNetworkConfig` succeeds and assigns physical radios to the wifi-type
interfaces in cyclic round-robin order starting at `wi`. -/
theorem getNetworkConfig_round_robin_aux (c : String) (ws : List String)
    (pool : Nat → Nat) (hws : ws ≠ []) :
    ∀ cfgs si wi, (∀ p ∈ cfgs, validEntry p) →
      ∃ l, getNetworkConfig c ws pool cfgs si wi = .ok l ∧
        wifiDevicesOf l = roundRobin ws wi (countWifi cfgs) := by
  intro cfgs
  induction cfgs with
  | nil => intro si wi _; exact ⟨[], rfl, rfl⟩
  | cons q rest ih =>
      intro si wi hvalid
      obtain ⟨name, cfg⟩ := q
      obtain ⟨hlen, hintf, hty, hssidv⟩ := hvalid _ (List.mem_cons_self _ _)
      dsimp only at hlen hintf hty hssidv
      obtain ⟨intf, hIntf⟩ := Option.isSome_iff_exists.mp hintf
      obtain ⟨ty, hTy⟩ := Option.isSome_iff_exists.mp hty
      have hvr : ∀ p ∈ rest, validEntry p := fun p hp => hvalid p (List.mem_cons_of_mem _ hp)
      by_cases hw : ty = "wifi"
      · subst hw
        have hlp : 0 < ws.length := List.length_pos.mpr hws
        have hmod : wi % ws.length < ws.length := Nat.mod_lt _ hlp
        obtain ⟨dev, hget⟩ : ∃ d, ws.get? (wi % ws.length) = some d := by
          cases hg : ws.get? (wi % ws.length) with
          | none => rw [List.get?_eq_none] at hg; omega
          | some d => exact ⟨d, rfl⟩
        have hssid' : cfg.ssid.isSome := hssidv hTy
        obtain ⟨sd, hssid⟩ := Option.isSome_iff_exists.mp hssid'
        obtain ⟨l', hok', hrr'⟩ := ih (si + 1) (wi + 1) hvr
        refine ⟨{ name := name, netType := "wifi",
                  externalIntf := externalIntfName c intf, internalIntf := intf,
                  netmask := ipv4Str 4294967040,
                  externalIpaddr := ipv4Str (pool si + 1),
                  internalIpaddr := ipv4Str (pool si + 2),
                  ipaddrWithPrefixStr := ipv4Str (pool si + 2) ++ "/24",
                  device := some dev, ssid := some sd,
                  encryption := cfg.encryption, key := cfg.key,
                  dhcp := cfg.dhcp } :: l', ?_, ?_⟩
        · simp only [getNetworkConfig]
          rw [if_neg (by omega), hIntf, hTy]
          dsimp only
          rw [if_pos rfl, hget, hssid, hok']
        · have hcw : countWifi ((name, cfg) :: rest) = countWifi rest + 1 := by
            simp [countWifi, List.filter_cons, hTy]
          rw [hcw, roundRobin_succ, hget, ← hrr']
          simp [wifiDevicesOf, List.filter_cons]
      · obtain ⟨l', hok', hrr'⟩ := ih (si + 1) wi hvr
        refine ⟨{ name := name, netType := ty,
                  externalIntf := externalIntfName c intf, internalIntf := intf,
                  netmask := ipv4Str 4294967040,
                  externalIpaddr := ipv4Str (pool si + 1),
                  internalIpaddr := ipv4Str (pool si + 2),
                  ipaddrWithPrefixStr := ipv4Str (pool si + 2) ++ "/24",
                  dhcp := cfg.dhcp } :: l', ?_, ?_⟩
        · simp only [getNetworkConfig]
          rw [if_neg (by omega), hIntf, hTy]
          dsimp only
          rw [if_neg hw, hok']
        · have hcw : countWifi ((name, cfg) :: rest) = countWifi rest := by
            simp [countWifi, List.filter_cons, hTy, hw]
          rw [hcw, ← hrr']
          simp [wifiDevicesOf, List.filter_cons, hw]

/-- C10: `getNetworkConfig` raises the missing-WiFi-device error if and
only if the cached `networkDevices` wifi list is empty: with a non-empty
list that error never occurs and any number of (valid) wifi-type
interfaces succeed, the radios assigned in cyclic round-robin order; with
an empty list, any valid configuration requesting a wifi interface fails
with exactly that error. -/
theorem wifi_round_robin (c : String) (ws : List String) (pool : Nat → Nat) :
    (ws ≠ [] → ∀ cfgs si wi, getNetworkConfig c ws pool cfgs si wi ≠
        .error "Missing WiFi device(s) requested by chute") ∧
    (ws = [] → ∀ cfgs si wi, (∀ p ∈ cfgs, validEntry p) →
        (∃ p ∈ cfgs, p.2.type = some "wifi") →
        getNetworkConfig c ws pool cfgs si wi =
          .error "Missing WiFi device(s) requested by chute") ∧
    (ws ≠ [] → ∀ cfgs si wi, (∀ p ∈ cfgs, validEntry p) →
        ∃ l, getNetworkConfig c ws pool cfgs si wi = .ok l ∧
          wifiDevicesOf l = roundRobin ws wi (countWifi cfgs)) := by
  refine ⟨fun hws => getNetworkConfig_no_missing c ws pool hws, fun hws => ?_,
    fun hws => getNetworkConfig_round_robin_aux c ws pool hws⟩
  subst hws
  exact getNetworkConfig_missing_when_empty c pool

theorem wifi_round_robin_witness :
    ∃ l, getNetworkConfig "mychute" ["r1", "r2"] poolC
        [("w0", { intfName := some "wlan0", type := some "wifi", ssid := some "s0" }),
         ("w1", { intfName := some "wlan1", type := some "wifi", ssid := some "s1" }),
         ("e0", { intfName := some "eth0", type := some "lan" }),
         ("w2", { intfName := some "wlan2", type := some "wifi", ssid := some "s2" })]
        0 0 = .ok l ∧
      wifiDevicesOf l = roundRobin ["r1", "r2"] 0 (countWifi
        [("w0", { intfName := some "wlan0", type := some "wifi", ssid := some "s0" }),
         ("w1", { intfName := some "wlan1", type := some "wifi", ssid := some "s1" }),
         ("e0", { intfName := some "eth0", type := some "lan" }),
         ("w2", { intfName := some "wlan2", type := some "wifi", ssid := some "s2" })]) :=
  (wifi_round_robin "mychute" ["r1", "r2"] poolC).2.2 (by decide) _ 0 0 (by decide)

end Paradrop
